import Mathlib

/-!
Verification of src/financial_functions.py against its specification.

Modelling conventions:
* Python floats are modelled as real numbers.
* Calendar dates are modelled as integer day numbers; date-string parsing is an
  external collaborator, so the Python `(d1 - d0).days` becomes integer subtraction.
* Python exceptions (ZeroDivisionError, AttributeError) are modelled with
  `Option`: `none` is a raised exception.
* The class attribute `cetes` (a risk-free curve fetched over the network) is an
  external collaborator; the fetched percentage value is passed in as a parameter
  wherever the source reads it.
-/

namespace FinancialFunctions

/-- Source line 17: `futureValue = lambda capital, interest, periods:
capital * (1 + interest) ** periods`.  `periods` is a real exponent; `Real.rpow`
agrees with the integer power whenever the source passes an integer day count
(`Real.rpow_intCast`). -/
noncomputable def futureValue (capital interest periods : ℝ) : ℝ :=
  capital * (1 + interest) ^ periods

/-- Source line 21: `presetValue = lambda capital, interest, periods:
capital * (1 + interest) ** (-periods)` (the source spells presentValue this way). -/
noncomputable def presetValue (capital interest periods : ℝ) : ℝ :=
  capital * (1 + interest) ^ (-periods)

/-- Source line 25: `annualInterest = lambda initial_capital, end_capital, years:
(end_capital / initial_capital) ** (1 / years) - 1`.
`none` models a raised ZeroDivisionError: `end_capital / initial_capital` raises when
`initial_capital == 0`, `1 / years` raises when `years == 0`, and `0.0 ** negative`
raises as well.  For a negative ratio and non-integer exponent Python returns a
complex number whose real part is exactly `Real.rpow`, which the `some` branch
computes. -/
noncomputable def annualInterest (initial_capital end_capital years : ℝ) : Option ℝ :=
  if initial_capital = 0 then none
  else if years = 0 then none
  else if end_capital / initial_capital = 0 ∧ 1 / years < 0 then none
  else some ((end_capital / initial_capital) ^ (1 / years) - 1)

/-- Source line 41: `equivalentAnnualInterest = lambda rate, cap:
(1 + rate / cap) ** cap - 1`. -/
noncomputable def equivalentAnnualInterest (rate cap : ℝ) : ℝ :=
  (1 + rate / cap) ^ cap - 1

/-- Source line 56: `equivalentRate = lambda rate, cap, new_cap:
new_cap * ((1 + rate / cap) ** (cap / new_cap) - 1)`. -/
noncomputable def equivalentRate (rate cap new_cap : ℝ) : ℝ :=
  new_cap * ((1 + rate / cap) ^ (cap / new_cap) - 1)

/-- Modelled from the spec: `contEquivalentRate` is called by
`interest_rate.annualRate` (line 150) and `interest_rate.riskFreeSpread`
(lines 181-182) but is defined nowhere in the repository.  The spec supplies the
closed form: when the target frequency is the continuous sentinel,
`rate_cont = freq * ln(1 + rate / freq)`. -/
noncomputable def contEquivalentRate (rate cap : ℝ) : ℝ :=
  cap * Real.log (1 + rate / cap)

/-- The Python builtin `int(x)` applied to a float: truncation toward zero. -/
noncomputable def pyInt (x : ℝ) : ℤ :=
  if 0 ≤ x then ⌊x⌋ else -⌊-x⌋

/-- The Python builtin `round(x, 2)` used at source line 223.  Python rounds
half-to-even on binary floats; this model rounds half up, which agrees with the
source everywhere a claim evaluates it (no claim evaluates it at a half-cent). -/
noncomputable def round2 (x : ℝ) : ℝ :=
  ((round (100 * x) : ℤ) : ℝ) / 100

/-- Frequency descriptors accepted by `interest_rate.annualRate` and
`interest_rate.rate`: the keys of
`cap_options = {'daily':360, '1m':12, '2m':6, '3m':4, '4m':3, '6m':2, '1y':1, 'cont':inf}`
plus a raw integer frequency (the source dispatches on `type(cap_desc)`).
A string outside the table raises KeyError and is outside the domain of this
embedding. -/
inductive CapDesc
  | daily | m1 | m2 | m3 | m4 | m6 | y1 | cont
  | int (n : ℤ)

/-- The numeric frequency `aux` looked up for a descriptor (source lines 143-147
and 160-164).  For `cont` the Python table holds `float('inf')`; that entry is
never read, because both callers return on the `cont` branch before `aux` is
used, so the placeholder value 0 here is immaterial. -/
noncomputable def cap_options : CapDesc → ℝ
  | .daily => 360
  | .m1 => 12
  | .m2 => 6
  | .m3 => 4
  | .m4 => 3
  | .m6 => 2
  | .y1 => 1
  | .cont => 0
  | .int n => (n : ℤ)

/-- The dictionary `{'rate': r, 'cap': c}` passed to `interest_rate.__init__`. -/
structure RateDict where
  rate : ℝ
  cap : ℝ

/-- Source lines 125-135: class `interest_rate`, holding its `reference_rate`
dictionary.  The class attribute `cetes` is the external risk-free curve and is
not needed by any claim about this class. -/
structure interest_rate where
  reference_rate : RateDict

/-- Source lines 137-152: method `annualRate`.  It looks up the frequency `aux`,
then returns `contEquivalentRate(rate, cap)` when `cap_desc == 'cont'` and
`equivalentRate(rate, cap, aux)` otherwise. -/
noncomputable def interest_rate.annualRate (self : interest_rate) (cap_desc : CapDesc) : ℝ :=
  match cap_desc with
  | .cont => contEquivalentRate self.reference_rate.rate self.reference_rate.cap
  | c => equivalentRate self.reference_rate.rate self.reference_rate.cap (cap_options c)

/-- Source lines 155-169: method `rate`.  Returns `annualRate(cap_desc)` itself
when `cap_desc == 'cont'`, otherwise `annualRate(cap_desc) / aux`. -/
noncomputable def interest_rate.rate (self : interest_rate) (cap_desc : CapDesc) : ℝ :=
  match cap_desc with
  | .cont => self.annualRate .cont
  | c => self.annualRate c / cap_options c

/-- Source lines 266-270: a payment record
`{'id': ..., 'date': ..., 'amount': ..., 'valid': ...}`.  The date string is
modelled as an integer day number. -/
structure Payment where
  id : ℤ
  date : ℤ
  amount : ℝ
  valid : Bool

/-- Source lines 196-228: the mutable state of a `debt` object.  `debt_status`
is the attribute assigned by `status`; it does not exist on a fresh object
(reading it then raises AttributeError), modelled as `Option String` starting at
`none`. -/
structure debt where
  payments : List Payment
  invalid_payments : List ℤ
  initial_date : ℤ
  final_date : ℤ
  actual_date : ℤ
  capital : ℝ
  reference_rate : RateDict
  i : interest_rate
  final_capital : ℝ
  discount_rate : interest_rate
  debt_status : Option String

/-- Source lines 203-228: `debt.__init__`.  `actual_date` is the construction
time `datetime.now()`; `cetes_rate_pct` is the externally fetched risk-free rate
in percent for the chosen tenor `discount_tenor` (the source reads
`self.cetes[discount_rate]`). -/
noncomputable def debt.init (initial_date final_date actual_date : ℤ) (capital : ℝ)
    (rate : RateDict) (cetes_rate_pct : ℝ) (discount_tenor : ℝ) : debt :=
  let i : interest_rate := ⟨rate⟩
  { payments := []
    invalid_payments := []
    initial_date := initial_date
    final_date := final_date
    actual_date := actual_date
    capital := capital
    reference_rate := rate
    i := i
    final_capital := round2 (futureValue capital (i.rate (.int 360))
      ((final_date - initial_date : ℤ) : ℝ))
    discount_rate := ⟨⟨cetes_rate_pct / 100, 360 / discount_tenor⟩⟩
    debt_status := none }

/-- Source lines 230-240: `daysToGo(ref_date = None)` returns
`(final_date - ref_date).days`, defaulting `ref_date` to `actual_date`. -/
def debt.daysToGo (self : debt) (ref_date : Option ℤ) : ℤ :=
  self.final_date - ref_date.getD self.actual_date

/-- Source lines 251-256: `discountRate(cap_desc)` delegates to the discount
rate object. -/
noncomputable def debt.discountRate (self : debt) (cap_desc : CapDesc) : ℝ :=
  self.discount_rate.rate cap_desc

/-- Source lines 258-270: `registerPayment(amount, date)` appends a payment with
id 1 on an empty list and last id + 1 otherwise, always `valid = True`. -/
def debt.registerPayment (self : debt) (amount : ℝ) (date : ℤ) : debt :=
  match self.payments.getLast? with
  | none => { self with payments := [⟨1, date, amount, true⟩] }
  | some p => { self with payments := self.payments ++ [⟨p.id + 1, date, amount, true⟩] }

/-- The body of the marking loop at source lines 277-280: a payment whose id is
in the invalidation list has `valid` set to `False`, others are untouched. -/
def markInvalid (inv : List ℤ) (p : Payment) : Payment :=
  if p.id ∈ inv then { p with valid := false } else p

/-- Source lines 272-280: `invalidPayments(_id)` appends `_id` to the
invalidation list and then marks every payment whose id is in that (whole)
list. -/
def debt.invalidPayments (self : debt) (_id : ℤ) : debt :=
  let inv := self.invalid_payments ++ [_id]
  { self with
    invalid_payments := inv
    payments := self.payments.map (markInvalid inv) }

/-- The body of the restoring loop at source lines 290-293: a payment whose id
equals `_id` has `valid` set back to `True`. -/
def restoreValid (_id : ℤ) (p : Payment) : Payment :=
  if p.id = _id then { p with valid := true } else p

/-- Source lines 282-295: `deleteInvalidPayment(_id)` removes `_id` from the
invalidation list and restores `valid = True` on every payment with that id. -/
def debt.deleteInvalidPayment (self : debt) (_id : ℤ) : debt :=
  { self with
    invalid_payments := self.invalid_payments.filter (fun j => j != _id)
    payments := self.payments.map (restoreValid _id) }

/-- Source lines 297-301: `resetInvalidPayments` clears only the invalidation
list. -/
def debt.resetInvalidPayments (self : debt) : debt :=
  { self with invalid_payments := [] }

/-- Source lines 303-307: `resetPayments` assigns `self.payments = []` and
nothing else; the invalidation list is untouched. -/
def debt.resetPayments (self : debt) : debt :=
  { self with payments := [] }

/-- The summation loop of `actualFinalDebt` (source lines 317-327): for every
payment that is still valid, `futureValue(amount, discountRate('daily'),
daysToGo(date))`, summed. -/
noncomputable def debt.paymentsTotal (self : debt) : ℝ :=
  ((self.payments.filter (fun p => p.valid)).map
    (fun p => futureValue p.amount (self.discountRate .daily)
      ((self.daysToGo (some p.date) : ℤ) : ℝ))).sum

/-- Source lines 310-334: `actualFinalDebt`.  An empty payment list short-cuts
to `final_capital` (without flooring); otherwise the valid payments are
future-valued to maturity, subtracted, and a negative result is floored to 0. -/
noncomputable def debt.actualFinalDebt (self : debt) : ℝ :=
  if self.payments.isEmpty then self.final_capital
  else
    let actual_debt := self.final_capital - self.paymentsTotal
    if actual_debt < 0 then 0 else actual_debt

open Classical in
/-- Source lines 392-408: `status` runs three independent `if` statements and
then returns `self.debt_status`.  When none of them fires (balance positive and
`daysToGo() == 0`) the attribute was never assigned: on a fresh object the
return raises AttributeError (modelled by `none`), and on a non-fresh object the
stale previous value is returned.  The pair carries the updated object state. -/
noncomputable def debt.status (self : debt) : Option String × debt :=
  let flag := self.daysToGo none
  let s1 := if self.actualFinalDebt = 0 then some "Done." else self.debt_status
  let s2 := if flag < 0 ∧ self.actualFinalDebt > 0 then some "Overdue." else s1
  let s3 := if flag > 0 ∧ self.actualFinalDebt > 0 then some "Active." else s2
  (s3, { self with debt_status := s3 })

/-- Source lines 362-370: `simulate(periods, cap_desc, initial_capital)`
evaluates `self.rate(cap_desc)`, but class `debt` defines no attribute or method
named `rate` (its interest-rate object is stored in the field `i`), so every
call raises AttributeError before any arithmetic; `none` models that failure. -/
def debt.simulate (self : debt) (periods : ℝ) (cap_desc : CapDesc)
    (initial_capital : Option ℝ) : Option ℝ :=
  none

/-- Source lines 467-486: the coupon dictionary of a `Bonds` object after
`__init__` has enriched it with the derived entries. -/
structure Coupons where
  delta_periods : ℝ
  interest_rate : ℝ
  value : ℝ
  pending_coupons : ℝ
  integer_coupons : ℤ
  float_coupons : ℝ

/-- Source lines 461-519: the state of a `Bonds` object.  `lsp` is the cached
discounted-cash-flow list: it does not exist on a fresh object (it is assigned
only inside `dirtyPrice`), so it is modelled as `Option (List ℝ)` starting at
`none`. -/
structure Bonds where
  nominal_value : ℝ
  coupons : Coupons
  market_rate : ℝ
  passed_units : ℝ
  pending_units : ℝ
  lsp : Option (List ℝ)

/-- Source lines 467-486: `Bonds.__init__`. -/
noncomputable def Bonds.init (nominal_value delta_periods coupon_interest_rate
    market_rate time2maturity : ℝ) : Bonds :=
  let value := nominal_value * delta_periods * coupon_interest_rate / 360
  let pending := time2maturity / delta_periods
  let integer := pyInt pending
  let floatc := pending - (integer : ℝ)
  { nominal_value := nominal_value
    coupons :=
      { delta_periods := delta_periods
        interest_rate := coupon_interest_rate
        value := value
        pending_coupons := pending
        integer_coupons := integer
        float_coupons := floatc }
    market_rate := market_rate
    passed_units := delta_periods * (1 - floatc)
    pending_units := floatc * delta_periods
    lsp := none }

/-- The list `present_value_list` built by the loop of `dirtyPrice` (source
lines 489-493): for `j = 1 .. integer_coupons`, the coupon value (with the
nominal redemption bundled into the last one) discounted `j` periods at the
per-period market rate `delta_periods * market_rate / 360`. -/
noncomputable def Bonds.lspList (self : Bonds) : List ℝ :=
  (List.range self.coupons.integer_coupons.toNat).map (fun k =>
    let j : ℤ := (k : ℤ) + 1
    presetValue
      (if j ≠ self.coupons.integer_coupons then self.coupons.value
       else self.coupons.value + self.nominal_value)
      (self.coupons.delta_periods * self.market_rate / 360) (j : ℝ))

open Classical in
/-- The value returned by `dirtyPrice` (source lines 488-498): the sum of the
discounted cash flows, plus one extra coupon value when there is a fractional
stub period (`float_coupons == False` in Python is the test `float_coupons ==
0.0`). -/
noncomputable def Bonds.dirtyPriceVal (self : Bonds) : ℝ :=
  let present_value := self.lspList.sum
  if self.coupons.float_coupons = 0 then present_value
  else present_value + self.coupons.value

/-- Source lines 488-498: `dirtyPrice` also stores the discounted-cash-flow list
in `self.lsp`; the pair carries the updated object state. -/
noncomputable def Bonds.dirtyPrice (self : Bonds) : ℝ × Bonds :=
  (self.dirtyPriceVal, { self with lsp := some self.lspList })

open Classical in
/-- The value returned by `cleanPrice` (source lines 500-508): the dirty price,
discounted back by the stub fraction of a period, minus the interest accrued
over `passed_units` days. -/
noncomputable def Bonds.cleanPriceVal (self : Bonds) : ℝ :=
  let dirty := self.dirtyPriceVal
  if self.coupons.float_coupons = 0 then dirty
  else
    let value_at_passed := dirty /
      (1 + self.coupons.delta_periods * self.market_rate / 360)
        ^ (self.pending_units / self.coupons.delta_periods)
    let delayed_interest :=
      self.nominal_value * self.coupons.interest_rate * self.passed_units / 360
    value_at_passed - delayed_interest

/-- Source lines 510-516: `getDuration` iterates over `self.lsp` before calling
`cleanPrice`; on a fresh object the attribute `lsp` does not exist and the read
raises AttributeError, modelled by `none`. -/
noncomputable def Bonds.getDuration (self : Bonds) : Option ℝ :=
  match self.lsp with
  | none => none
  | some l =>
    let duration := (l.enum.map (fun kv =>
      ((kv.1 : ℝ) + 1) * self.coupons.delta_periods * kv.2 / 360)).sum
    some (duration / self.cleanPriceVal)

/-- Source lines 518-519: `getSensibility` divides `getDuration()` by
`1 + market_rate`; a failure of `getDuration` propagates. -/
noncomputable def Bonds.getSensibility (self : Bonds) : Option ℝ :=
  self.getDuration.map (fun dur => dur / (1 + self.market_rate))

/-- A reference-rate dictionary (12 percent, monthly compounding, the source
default) used by the concrete example states below. -/
noncomputable def exRate : RateDict := ⟨0.12, 12⟩

/-- A ledger whose issue, maturity and construction dates all coincide (day 0)
with capital 100: its balance is positive while `daysToGo()` is exactly 0. -/
noncomputable def dMat : debt := debt.init 0 0 0 100 exRate 7 28

/-- A ledger like `dMat` but with capital -100, so `final_capital` is negative. -/
noncomputable def dNeg : debt := debt.init 0 0 0 (-100) exRate 7 28

/-- The ledger `dMat` after registering a payment of 30 dated on the maturity
day (so its future value is its amount, whatever the discount rate). -/
noncomputable def dPay : debt := dMat.registerPayment 30 0

/-- The ledger `dPay` after its only payment has been invalidated. -/
noncomputable def dInv : debt := dPay.invalidPayments 1

/-- The ledger `dInv` after invalidating every payment id and then restoring
every payment id (the round trip of claim C7). -/
noncomputable def dRestored : debt := (dInv.invalidPayments 1).deleteInvalidPayment 1

/-- A ledger with one registered payment that has been invalidated, so its
invalidation list holds the id 1. -/
noncomputable def dC5 : debt :=
  ((debt.init 0 10 0 100 exRate 7 28).registerPayment 5 0).invalidPayments 1

/-- The bond of the worked example: nominal 100, 182-day coupons at 8.2 percent,
market rate 8.5 percent, 100 days to maturity. -/
noncomputable def bEx : Bonds := Bonds.init 100 182 0.082 0.085 100

/-! Helper lemmas: evaluation of the primitive functions and the record
operations. -/

lemma futureValue_zero (c r : ℝ) : futureValue c r 0 = c := by
  simp [futureValue, Real.rpow_zero]

lemma round2_ofInt (n : ℤ) : round2 ((n : ℤ) : ℝ) = ((n : ℤ) : ℝ) := by
  unfold round2
  rw [show (100 : ℝ) * ((n : ℤ) : ℝ) = (((100 * n : ℤ)) : ℝ) by push_cast; ring,
    round_intCast]
  push_cast
  rw [mul_comm]
  exact mul_div_cancel_right₀ _ (by norm_num)

@[simp]
lemma invalidPayments_payments (d : debt) (x : ℤ) :
    (d.invalidPayments x).payments
      = d.payments.map (markInvalid (d.invalid_payments ++ [x])) := rfl

@[simp]
lemma invalidPayments_invalid (d : debt) (x : ℤ) :
    (d.invalidPayments x).invalid_payments = d.invalid_payments ++ [x] := rfl

@[simp]
lemma invalidPayments_final_capital (d : debt) (x : ℤ) :
    (d.invalidPayments x).final_capital = d.final_capital := rfl

@[simp]
lemma invalidPayments_final_date (d : debt) (x : ℤ) :
    (d.invalidPayments x).final_date = d.final_date := rfl

@[simp]
lemma invalidPayments_actual_date (d : debt) (x : ℤ) :
    (d.invalidPayments x).actual_date = d.actual_date := rfl

@[simp]
lemma invalidPayments_discount_rate (d : debt) (x : ℤ) :
    (d.invalidPayments x).discount_rate = d.discount_rate := rfl

@[simp]
lemma deleteInvalidPayment_payments (d : debt) (x : ℤ) :
    (d.deleteInvalidPayment x).payments = d.payments.map (restoreValid x) := rfl

@[simp]
lemma deleteInvalidPayment_final_capital (d : debt) (x : ℤ) :
    (d.deleteInvalidPayment x).final_capital = d.final_capital := rfl

@[simp]
lemma deleteInvalidPayment_final_date (d : debt) (x : ℤ) :
    (d.deleteInvalidPayment x).final_date = d.final_date := rfl

@[simp]
lemma deleteInvalidPayment_actual_date (d : debt) (x : ℤ) :
    (d.deleteInvalidPayment x).actual_date = d.actual_date := rfl

@[simp]
lemma deleteInvalidPayment_discount_rate (d : debt) (x : ℤ) :
    (d.deleteInvalidPayment x).discount_rate = d.discount_rate := rfl

lemma dMat_final_capital : dMat.final_capital = 100 := by
  have h : dMat.final_capital
      = round2 (futureValue 100 ((interest_rate.mk exRate).rate (.int 360))
        (((0 - 0 : ℤ)) : ℝ)) := rfl
  rw [h, show (((0 - 0 : ℤ)) : ℝ) = (0 : ℝ) by norm_num, futureValue_zero,
    show (100 : ℝ) = ((100 : ℤ) : ℝ) by norm_num, round2_ofInt]

lemma dNeg_final_capital : dNeg.final_capital = -100 := by
  have h : dNeg.final_capital
      = round2 (futureValue (-100) ((interest_rate.mk exRate).rate (.int 360))
        (((0 - 0 : ℤ)) : ℝ)) := rfl
  rw [h, show (((0 - 0 : ℤ)) : ℝ) = (0 : ℝ) by norm_num, futureValue_zero,
    show (-100 : ℝ) = ((-100 : ℤ) : ℝ) by norm_num, round2_ofInt]

lemma markInvalid_mono (S T : List ℤ) (hST : ∀ x ∈ S, x ∈ T) (p : Payment) :
    markInvalid T (markInvalid S p) = markInvalid T p := by
  unfold markInvalid
  by_cases h : p.id ∈ S
  · rw [if_pos h]
    simp [hST _ h]
  · rw [if_neg h]

lemma foldl_invalidPayments_fields (L : List ℤ) (d : debt) :
    (List.foldl debt.invalidPayments d L).final_capital = d.final_capital ∧
    (List.foldl debt.invalidPayments d L).final_date = d.final_date ∧
    (List.foldl debt.invalidPayments d L).actual_date = d.actual_date ∧
    (List.foldl debt.invalidPayments d L).discount_rate = d.discount_rate ∧
    (List.foldl debt.invalidPayments d L).invalid_payments
      = d.invalid_payments ++ L := by
  induction L generalizing d with
  | nil => simp
  | cons a t ih =>
    simp only [List.foldl_cons]
    rcases ih (d.invalidPayments a) with ⟨h1, h2, h3, h4, h5⟩
    refine ⟨h1, h2, h3, h4, ?_⟩
    rw [h5, invalidPayments_invalid]
    simp

lemma foldl_invalidPayments_payments (L : List ℤ) (d : debt) (hL : L ≠ []) :
    (List.foldl debt.invalidPayments d L).payments
      = d.payments.map (markInvalid (d.invalid_payments ++ L)) := by
  induction L generalizing d with
  | nil => exact absurd rfl hL
  | cons a t ih =>
    simp only [List.foldl_cons]
    by_cases ht : t = []
    · subst ht
      simp
    · rw [ih (d.invalidPayments a) ht, invalidPayments_payments,
        invalidPayments_invalid, List.map_map]
      apply List.map_congr_left
      intro p hp
      have hsub : ∀ x ∈ d.invalid_payments ++ [a],
          x ∈ (d.invalid_payments ++ [a]) ++ t :=
        fun x hx => List.mem_append_left _ hx
      rw [Function.comp_apply, markInvalid_mono _ _ hsub p]
      have hl : (d.invalid_payments ++ [a]) ++ t
          = d.invalid_payments ++ (a :: t) := by simp
      rw [hl]

lemma restoreValid_then (a : ℤ) (L : List ℤ) (p : Payment) :
    (if (restoreValid a p).id ∈ L then { restoreValid a p with valid := true }
      else restoreValid a p)
      = if p.id ∈ a :: L then { p with valid := true } else p := by
  by_cases h : p.id = a <;> by_cases h2 : p.id ∈ L <;>
    simp [restoreValid, h, h2, List.mem_cons]

lemma foldl_deleteInvalidPayment (L : List ℤ) (d : debt) :
    (List.foldl debt.deleteInvalidPayment d L).final_capital = d.final_capital ∧
    (List.foldl debt.deleteInvalidPayment d L).final_date = d.final_date ∧
    (List.foldl debt.deleteInvalidPayment d L).actual_date = d.actual_date ∧
    (List.foldl debt.deleteInvalidPayment d L).discount_rate = d.discount_rate ∧
    (List.foldl debt.deleteInvalidPayment d L).payments
      = d.payments.map (fun p => if p.id ∈ L then { p with valid := true } else p) := by
  induction L generalizing d with
  | nil =>
    refine ⟨rfl, rfl, rfl, rfl, ?_⟩
    simp
  | cons a t ih =>
    simp only [List.foldl_cons]
    rcases ih (d.deleteInvalidPayment a) with ⟨h1, h2, h3, h4, h5⟩
    refine ⟨h1, h2, h3, h4, ?_⟩
    rw [h5, deleteInvalidPayment_payments, List.map_map]
    apply List.map_congr_left
    intro p hp
    exact restoreValid_then a t p

lemma actualFinalDebt_congr (d1 d2 : debt) (hp : d1.payments = d2.payments)
    (hfc : d1.final_capital = d2.final_capital)
    (hdr : d1.discount_rate = d2.discount_rate)
    (hfd : d1.final_date = d2.final_date) :
    d1.actualFinalDebt = d2.actualFinalDebt := by
  unfold debt.actualFinalDebt debt.paymentsTotal debt.discountRate debt.daysToGo
  rw [hp, hfc, hdr, hfd]
  simp

lemma actualFinalDebt_eval (d : debt) :
    d.actualFinalDebt = if d.payments.isEmpty then d.final_capital
      else if d.final_capital - d.paymentsTotal < 0 then 0
      else d.final_capital - d.paymentsTotal := rfl

lemma dPay_payments : dPay.payments = [⟨1, 0, 30, true⟩] := rfl

lemma dInv_payments : dInv.payments = [⟨1, 0, 30, false⟩] := by
  rw [dInv, invalidPayments_payments, dPay_payments]
  simp [markInvalid]

lemma dRestored_payments : dRestored.payments = [⟨1, 0, 30, true⟩] := by
  rw [dRestored, deleteInvalidPayment_payments, invalidPayments_payments,
    dInv_payments]
  simp [markInvalid, restoreValid]

lemma dMat_afd : dMat.actualFinalDebt = 100 := by
  rw [actualFinalDebt_eval, show dMat.payments = [] from rfl]
  simp [dMat_final_capital]

lemma dInv_afd : dInv.actualFinalDebt = 100 := by
  have hfc : dInv.final_capital = 100 := dMat_final_capital
  have htot : dInv.paymentsTotal = 0 := by
    unfold debt.paymentsTotal
    rw [dInv_payments]
    simp
  rw [actualFinalDebt_eval, dInv_payments, hfc, htot]
  norm_num

lemma dRestored_afd : dRestored.actualFinalDebt = 70 := by
  have hfc : dRestored.final_capital = 100 := dMat_final_capital
  have hfd : dRestored.final_date = 0 := rfl
  have htot : dRestored.paymentsTotal = 30 := by
    unfold debt.paymentsTotal debt.daysToGo
    rw [dRestored_payments, hfd]
    simp [futureValue_zero]
  rw [actualFinalDebt_eval, dRestored_payments, hfc, htot]
  norm_num

/-- Claim C1: for an InterestRate built from rate `r` and a finite discrete
frequency `f`, the annual equivalent at the continuous target is the closed form
`f * ln(1 + r / f)`, and the periodic rate at the continuous target is that same
continuous annual rate itself, not divided by any frequency. -/
theorem C1_continuous_target (r f : ℝ) :
    (interest_rate.mk ⟨r, f⟩).annualRate .cont = f * Real.log (1 + r / f) ∧
    (interest_rate.mk ⟨r, f⟩).rate .cont = (interest_rate.mk ⟨r, f⟩).annualRate .cont :=
  ⟨rfl, rfl⟩

/-- Claim C2, evaluated at the failing input: a ledger with positive balance
(100) whose current date equals the maturity date has `daysToGo() = 0`, and
`status()` assigns nothing and returns the never-created `debt_status`
attribute, raising AttributeError (`none`) instead of the Active the claim
requires. -/
theorem C2_status_tie_fails :
    dMat.actualFinalDebt = 100 ∧ dMat.daysToGo none = 0 ∧
      (dMat.status).1 = none := by
  have hflag : dMat.daysToGo none = 0 := rfl
  have hds : dMat.debt_status = none := rfl
  refine ⟨dMat_afd, hflag, ?_⟩
  simp only [debt.status]
  rw [hflag, dMat_afd, hds]
  norm_num

/-- Counterexample to claim C3 as stated: a ledger with negative
`final_capital` (-100) and zero payments returns -100, a negative value, while
`max 0 (final_capital - sum)` would be 0. -/
theorem C3_counterexample :
    dNeg.payments = [] ∧ dNeg.actualFinalDebt = -100 ∧
      dNeg.actualFinalDebt ≠ max 0 (dNeg.final_capital - dNeg.paymentsTotal) := by
  have hafd : dNeg.actualFinalDebt = -100 := by
    rw [actualFinalDebt_eval, show dNeg.payments = [] from rfl]
    simp [dNeg_final_capital]
  have htot : dNeg.paymentsTotal = 0 := by
    unfold debt.paymentsTotal
    rw [show dNeg.payments = [] from rfl]
    simp
  refine ⟨rfl, hafd, ?_⟩
  rw [hafd, htot, dNeg_final_capital]
  norm_num

/-- Claim C3 as amended: with a non-empty payment list the outstanding balance
is `max 0 (final_capital - sum of future-valued valid payments)`; with an empty
payment list it is `final_capital` itself, unfloored (the two agree whenever
`final_capital` is nonnegative). -/
theorem C3_amended (d : debt) :
    (d.payments = [] → d.actualFinalDebt = d.final_capital) ∧
    (d.payments ≠ [] →
      d.actualFinalDebt = max 0 (d.final_capital - d.paymentsTotal)) := by
  constructor
  · intro h
    rw [actualFinalDebt_eval, h]
    simp
  · intro h
    have hne : ¬d.payments.isEmpty := by
      cases hp : d.payments with
      | nil => exact absurd hp h
      | cons a t => simp
    rw [actualFinalDebt_eval, if_neg (by simpa using hne)]
    by_cases hlt : d.final_capital - d.paymentsTotal < 0
    · rw [if_pos hlt, max_eq_left hlt.le]
    · push_neg at hlt
      rw [if_neg (by linarith), max_eq_right hlt]

/-- Witness for the amended C3 at the concrete ledger `dMat` (empty payment
list): the balance equals `final_capital`. -/
theorem C3_amended_witness :
    dMat.payments = [] ∧ dMat.actualFinalDebt = dMat.final_capital :=
  ⟨rfl, (C3_amended dMat).1 rfl⟩

/-- Claim C4, evaluated on the code: every call of `simulate` fails
(AttributeError on the missing `rate` attribute of class `debt`) instead of
returning the claimed `futureValue` projection. -/
theorem C4_simulate_attribute_error (d : debt) (periods : ℝ) (cap_desc : CapDesc)
    (initial_capital : Option ℝ) :
    d.simulate periods cap_desc initial_capital = none := rfl

/-- Counterexample to claim C5 as stated: after `resetPayments()` the payment
sequence is empty but the invalidation set still holds the previously recorded
id 1 — it is not cleared. -/
theorem C5_counterexample :
    (dC5.resetPayments).payments = [] ∧
    (dC5.resetPayments).invalid_payments = [1] ∧
    (dC5.resetPayments).invalid_payments ≠ [] := by
  refine ⟨rfl, rfl, ?_⟩
  rw [show dC5.resetPayments.invalid_payments = [1] from rfl]
  simp

/-- Claim C5 as amended: `resetPayments` clears the payment sequence only and
leaves the invalidation set unchanged, so a previously recorded invalid id (ids
restart at 1 after the reset) invalidates a payment registered afterwards as
soon as `invalidPayments` runs again. -/
theorem C5_amended (d : debt) (amount : ℝ) (date x : ℤ) :
    (d.resetPayments).payments = [] ∧
    (d.resetPayments).invalid_payments = d.invalid_payments ∧
    (1 ∈ d.invalid_payments →
      (((d.resetPayments).registerPayment amount date).invalidPayments x).payments.map
        Payment.valid = [false]) := by
  refine ⟨rfl, rfl, ?_⟩
  intro h1
  have hreg : ((d.resetPayments).registerPayment amount date).payments
      = [⟨1, date, amount, true⟩] := rfl
  rw [invalidPayments_payments, hreg,
    show ((d.resetPayments).registerPayment amount date).invalid_payments
      = d.invalid_payments from rfl]
  simp [markInvalid, List.mem_append, h1]

/-- Witness for the amended C5 at the concrete ledger `dC5`, whose invalidation
set holds the id 1: after reset, register, and an unrelated invalidation (id 9),
the newly registered payment is invalid. -/
theorem C5_amended_witness :
    1 ∈ dC5.invalid_payments ∧
    (((dC5.resetPayments).registerPayment 20 3).invalidPayments 9).payments.map
      Payment.valid = [false] := by
  have h1 : 1 ∈ dC5.invalid_payments := by
    rw [show dC5.invalid_payments = [1] from rfl]
    simp
  exact ⟨h1, (C5_amended dC5 20 3 9).2.2 h1⟩

/-- Claim C6: converting a rate `r > -1` from a positive (integer) frequency
`f1` to `f2` and back returns `r` exactly:
`equivalentRate (equivalentRate r f1 f2) f2 f1 = r`. -/
theorem C6_roundtrip (r : ℝ) (f1 f2 : ℕ) (hf1 : 0 < f1) (hf2 : 0 < f2)
    (hr : -1 < r) :
    equivalentRate (equivalentRate r f1 f2) f2 f1 = r := by
  have hf1R : (0 : ℝ) < f1 := by exact_mod_cast hf1
  have hf2R : (0 : ℝ) < f2 := by exact_mod_cast hf2
  have hf1one : (1 : ℝ) ≤ f1 := by exact_mod_cast hf1
  have hx : (0 : ℝ) < 1 + r / f1 := by
    have h1 : -1 < r / f1 := by
      rw [lt_div_iff₀ hf1R]
      nlinarith
    linarith
  unfold equivalentRate
  have hinner : 1 + (f2 : ℝ) * ((1 + r / f1) ^ ((f1 : ℝ) / f2) - 1) / f2
      = (1 + r / f1) ^ ((f1 : ℝ) / f2) := by
    field_simp
  rw [hinner]
  have hmul : ((1 + r / f1) ^ ((f1 : ℝ) / f2)) ^ ((f2 : ℝ) / f1)
      = (1 + r / f1) ^ (((f1 : ℝ) / f2) * ((f2 : ℝ) / f1)) :=
    (Real.rpow_mul hx.le _ _).symm
  have hone : ((f1 : ℝ) / f2) * ((f2 : ℝ) / f1) = 1 := by
    field_simp
  rw [hmul, hone, Real.rpow_one]
  field_simp

/-- Witness for C6 at `r = 1`, `f1 = 2`, `f2 = 4`. -/
theorem C6_roundtrip_witness :
    equivalentRate (equivalentRate 1 2 4) 4 2 = (1 : ℝ) := by
  exact_mod_cast C6_roundtrip 1 2 4 (by norm_num) (by norm_num) (by norm_num)

/-- Counterexample to claim C7 as stated: in the ledger `dInv` (one payment,
already invalidated, balance 100) "invalidating every payment and then
restoring every one of them" leaves the balance at 70 instead of returning it
to the prior value 100 — restoring also revives the payment that was invalid
before the experiment. -/
theorem C7_counterexample :
    dInv.actualFinalDebt = 100 ∧ dRestored.actualFinalDebt = 70 ∧
      dRestored.actualFinalDebt ≠ dInv.actualFinalDebt := by
  refine ⟨dInv_afd, dRestored_afd, ?_⟩
  rw [dInv_afd, dRestored_afd]
  norm_num

/-- Claim C7 as amended: for a ledger with a non-empty payment list in which
every payment is valid and whose `final_capital` is nonnegative, invalidating
every payment id drives the balance to `final_capital`, and then restoring
every one of those ids returns the balance to its prior value. -/
theorem C7_amended (d : debt) (hne : d.payments ≠ [])
    (hval : ∀ p ∈ d.payments, p.valid = true) (hfc : 0 ≤ d.final_capital) :
    (List.foldl debt.invalidPayments d (d.payments.map Payment.id)).actualFinalDebt
        = d.final_capital ∧
    (List.foldl debt.deleteInvalidPayment
        (List.foldl debt.invalidPayments d (d.payments.map Payment.id))
        (d.payments.map Payment.id)).actualFinalDebt = d.actualFinalDebt := by
  set L : List ℤ := d.payments.map Payment.id with hL
  have hLne : L ≠ [] := by
    rw [hL]
    cases hp : d.payments with
    | nil => exact absurd hp hne
    | cons a t => simp
  set d1 : debt := List.foldl debt.invalidPayments d L with hd1
  obtain ⟨hfc1, hfd1, had1, hdr1, hinv1⟩ := foldl_invalidPayments_fields L d
  have hpay1 : d1.payments = d.payments.map (markInvalid (d.invalid_payments ++ L)) :=
    foldl_invalidPayments_payments L d hLne
  have hmem : ∀ p ∈ d.payments, p.id ∈ d.invalid_payments ++ L := by
    intro p hp
    exact List.mem_append_right _ (by rw [hL]; exact List.mem_map_of_mem _ hp)
  have hfilter1 : d1.payments.filter (fun p => p.valid) = [] := by
    rw [hpay1, List.filter_eq_nil_iff]
    intro q hq
    rcases List.mem_map.mp hq with ⟨p, hp, rfl⟩
    simp [markInvalid, hmem p hp]
  have htot1 : d1.paymentsTotal = 0 := by
    unfold debt.paymentsTotal
    rw [hfilter1]
    simp
  have hne1 : ¬d1.payments.isEmpty := by
    rw [hpay1]
    cases hp : d.payments with
    | nil => exact absurd hp hne
    | cons a t => simp
  have part1 : d1.actualFinalDebt = d.final_capital := by
    rw [actualFinalDebt_eval, if_neg (by simpa using hne1), htot1, hfc1]
    rw [if_neg (by linarith)]
    ring
  refine ⟨part1, ?_⟩
  set d2 : debt := List.foldl debt.deleteInvalidPayment d1 L with hd2
  obtain ⟨hfc2, hfd2, had2, hdr2, hpay2⟩ := foldl_deleteInvalidPayment L d1
  have hpay2d : d2.payments = d.payments := by
    rw [hpay2, hpay1, List.map_map]
    have hpt : ∀ p ∈ d.payments,
        ((fun p => if p.id ∈ L then { p with valid := true } else p) ∘
          markInvalid (d.invalid_payments ++ L)) p = p := by
      intro p hp
      have hidL : p.id ∈ L := by rw [hL]; exact List.mem_map_of_mem _ hp
      have h1 : markInvalid (d.invalid_payments ++ L) p = { p with valid := false } := by
        simp [markInvalid, hmem p hp]
      rw [Function.comp_apply, h1]
      have : ({ p with valid := false } : Payment).id = p.id := rfl
      rw [if_pos (by rw [this]; exact hidL)]
      cases p with
      | mk pid pdate pamount pvalid =>
        have := hval _ hp
        simp only at this
        simp [this]
    rw [List.map_congr_left hpt]
    simp
  exact actualFinalDebt_congr d2 d hpay2d (hfc2.trans hfc1)
    (hdr2.trans hdr1) (hfd2.trans hfd1)

/-- Witness for the amended C7 at the concrete ledger `dPay` (one valid payment
of 30, balance 70, `final_capital` 100): invalidating every id gives balance
100, restoring them gives balance 70 again. -/
theorem C7_amended_witness :
    dPay.payments ≠ [] ∧ 0 ≤ dPay.final_capital ∧
    (List.foldl debt.invalidPayments dPay (dPay.payments.map Payment.id)).actualFinalDebt
        = dPay.final_capital ∧
    (List.foldl debt.deleteInvalidPayment
        (List.foldl debt.invalidPayments dPay (dPay.payments.map Payment.id))
        (dPay.payments.map Payment.id)).actualFinalDebt = dPay.actualFinalDebt := by
  have hne : dPay.payments ≠ [] := by
    rw [dPay_payments]
    simp
  have hval : ∀ p ∈ dPay.payments, p.valid = true := by
    rw [dPay_payments]
    intro p hp
    simp at hp
    rw [hp]
  have hfc : (0 : ℝ) ≤ dPay.final_capital := by
    rw [show dPay.final_capital = 100 from dMat_final_capital]
    norm_num
  obtain ⟨h1, h2⟩ := C7_amended dPay hne hval hfc
  exact ⟨hne, hfc, h1, h2⟩

/-- Counterexample to claim C8 as stated: at `initial_capital = -2 ≤ 0`,
`end_capital = -1`, `years = 1` the source does not fail with a domain error; it
returns the real number `(-1)/(-2) ** 1 - 1 = -1/2`. -/
theorem C8_counterexample :
    ((-2 : ℝ) ≤ 0) ∧ annualInterest (-2) (-1) 1 = some (-(1 / 2)) ∧
      annualInterest (-2) (-1) 1 ≠ none := by
  refine ⟨by norm_num, ?_, ?_⟩
  · unfold annualInterest
    rw [if_neg (by norm_num), if_neg (by norm_num), if_neg (by norm_num)]
    rw [show ((-1 : ℝ) / (-2)) = (1 / 2 : ℝ) by norm_num,
      show ((1 : ℝ) / 1) = (1 : ℝ) by norm_num, Real.rpow_one]
    norm_num
  · unfold annualInterest
    rw [if_neg (by norm_num), if_neg (by norm_num), if_neg (by norm_num)]
    simp

/-- Claim C8 as amended: `annualInterest` fails with a domain error exactly when
`initial_capital = 0`, or `years = 0`, or (`end_capital = 0` and `years < 0`,
since Python refuses `0.0 ** negative`); in every other case it returns
`(end_capital / initial_capital) ** (1 / years) - 1`. -/
theorem C8_amended (initial_capital end_capital years : ℝ) :
    (annualInterest initial_capital end_capital years = none ↔
      initial_capital = 0 ∨ years = 0 ∨ (end_capital = 0 ∧ years < 0)) ∧
    (initial_capital ≠ 0 → years ≠ 0 → ¬(end_capital = 0 ∧ years < 0) →
      annualInterest initial_capital end_capital years
        = some ((end_capital / initial_capital) ^ (1 / years) - 1)) := by
  constructor
  · constructor
    · intro h
      by_cases h1 : initial_capital = 0
      · exact Or.inl h1
      by_cases h2 : years = 0
      · exact Or.inr (Or.inl h2)
      unfold annualInterest at h
      rw [if_neg h1, if_neg h2] at h
      by_cases h3 : end_capital / initial_capital = 0 ∧ 1 / years < 0
      · refine Or.inr (Or.inr ⟨?_, ?_⟩)
        · rcases div_eq_zero_iff.mp h3.1 with he | hi
          · exact he
          · exact absurd hi h1
        · exact one_div_neg.mp h3.2
      · rw [if_neg h3] at h
        exact absurd h (by simp)
    · intro h
      unfold annualInterest
      rcases h with h1 | h2 | ⟨he, hy⟩
      · rw [if_pos h1]
      · by_cases h1 : initial_capital = 0
        · rw [if_pos h1]
        · rw [if_neg h1, if_pos h2]
      · by_cases h1 : initial_capital = 0
        · rw [if_pos h1]
        by_cases h2 : years = 0
        · rw [if_neg h1, if_pos h2]
        rw [if_neg h1, if_neg h2,
          if_pos ⟨by rw [he]; exact zero_div _, one_div_neg.mpr hy⟩]
  · intro h1 h2 h3
    unfold annualInterest
    rw [if_neg h1, if_neg h2, if_neg ?_]
    intro hc
    rcases div_eq_zero_iff.mp hc.1 with he | hi
    · exact h3 ⟨he, one_div_neg.mp hc.2⟩
    · exact h1 hi

/-- Witness for the amended C8 at `initial_capital = 2`, `end_capital = 8`,
`years = 1`: the function returns `(8/2) ** 1 - 1 = 3`. -/
theorem C8_amended_witness : annualInterest 2 8 1 = some 3 := by
  have h := (C8_amended 2 8 1).2 (by norm_num) (by norm_num) (by norm_num)
  rw [h, show ((8 : ℝ) / 2) = (4 : ℝ) by norm_num,
    show ((1 : ℝ) / 1) = (1 : ℝ) by norm_num, Real.rpow_one]
  norm_num

/-- Claim C9: on the worked bond example the pending coupon count is `100/182`,
the whole-coupon count is 0, the dirty price is the single stub coupon value
`100 * 182 * 0.082 / 360`, the accrual basis is
`passed_units = 182 * (1 - 100/182)` days, and the clean price subtracts exactly
`nominal * coupon_rate * passed_units / 360` from the stub-discounted dirty
price. -/
theorem C9_bond_example :
    bEx.coupons.pending_coupons = 100 / 182 ∧
    bEx.coupons.integer_coupons = 0 ∧
    bEx.dirtyPriceVal = 100 * 182 * 0.082 / 360 ∧
    bEx.passed_units = 182 * (1 - 100 / 182) ∧
    bEx.cleanPriceVal = bEx.dirtyPriceVal /
        (1 + 182 * 0.085 / 360) ^ (bEx.pending_units / 182)
      - 100 * 0.082 * bEx.passed_units / 360 := by
  have hpy : pyInt ((100 : ℝ) / 182) = 0 := by
    unfold pyInt
    rw [if_pos (by norm_num : (0 : ℝ) ≤ 100 / 182)]
    rw [Int.floor_eq_zero_iff]
    exact Set.mem_Ico.mpr ⟨by norm_num, by norm_num⟩
  have hint : bEx.coupons.integer_coupons = 0 := by
    rw [show bEx.coupons.integer_coupons = pyInt ((100 : ℝ) / 182) from rfl, hpy]
  have hfl : bEx.coupons.float_coupons = 100 / 182 := by
    rw [show bEx.coupons.float_coupons
        = (100 : ℝ) / 182 - ((pyInt ((100 : ℝ) / 182) : ℤ) : ℝ) from rfl, hpy]
    norm_num
  have hflne : ¬bEx.coupons.float_coupons = 0 := by
    rw [hfl]
    norm_num
  have hlsp : bEx.lspList = [] := by
    unfold Bonds.lspList
    rw [hint]
    simp
  have hdirty : bEx.dirtyPriceVal = 100 * 182 * 0.082 / 360 := by
    unfold Bonds.dirtyPriceVal
    rw [hlsp, if_neg hflne]
    rw [show bEx.coupons.value = 100 * 182 * 0.082 / 360 from rfl]
    simp
  have hpassed : bEx.passed_units = 182 * (1 - 100 / 182) := by
    rw [show bEx.passed_units
        = 182 * (1 - ((100 : ℝ) / 182 - ((pyInt ((100 : ℝ) / 182) : ℤ) : ℝ))) from rfl,
      hpy]
    norm_num
  refine ⟨rfl, hint, hdirty, hpassed, ?_⟩
  unfold Bonds.cleanPriceVal
  rw [if_neg hflne]
  rw [show bEx.coupons.delta_periods = (182 : ℝ) from rfl,
    show bEx.market_rate = (0.085 : ℝ) from rfl,
    show bEx.nominal_value = (100 : ℝ) from rfl,
    show bEx.coupons.interest_rate = (0.082 : ℝ) from rfl]

/-- Claim C10: on a freshly constructed bond (no prior `dirtyPrice` or
`cleanPrice` call) `getDuration` reads the cached discounted-cash-flow list
`lsp`, which only a `dirtyPrice` computation creates, before triggering any
recomputation — so it fails (AttributeError), and `getSensibility` fails with
it. -/
theorem C10_duration_requires_price (nv dp ir mr t2m : ℝ) :
    (Bonds.init nv dp ir mr t2m).getDuration = none ∧
    (Bonds.init nv dp ir mr t2m).getSensibility = none :=
  ⟨rfl, rfl⟩

end FinancialFunctions
